import Mathlib

/-!
# Verification of the SynFMC U-Net block composition core

Shallow embedding of `src/fmc/models/unet_blocks.py`: the tensor reshape
protocol, the block factory dispatch, the per-layer construction arithmetic
of the Down/Up/Mid blocks, the skip-connection (LIFO) discipline of the
forward passes, and the adapter-scale (LoRA) keyword-argument injection.
Opaque tensor operators (resnets, attention, motion modules, resamplers) are
abstracted as function parameters; tensors are modelled as functions over
`Fin`-bounded indices; python dicts as association lists; raised exceptions
as `Except String`.
-/

namespace SynFMC

/-! ## Tensor reshape protocol (einops rearrange)

`rearrange(x, "b c f h w -> (b f) c h w")` and its inverse
`rearrange(y, "(b f) c h w -> b c f h w", f=video_length)`, as used in every
forward method of `unet_blocks.py` (e.g. `CrossAttnDownBlock3D.forward`
lines 402-409, `UNetMidBlock3DCrossAttn.forward` lines 236-238). -/

/-- A 5-axis video latent tensor of shape (B, C, F, H, W), as a function on
bounded indices. -/
def Tensor5 (B C F H W : Nat) (α : Type) : Type :=
  Fin B → Fin C → Fin F → Fin H → Fin W → α

/-- A 4-axis tensor of shape (N, C, H, W). -/
def Tensor4 (N C H W : Nat) (α : Type) : Type :=
  Fin N → Fin C → Fin H → Fin W → α

/-- `rearrange(x, "b c f h w -> (b f) c h w")`: einops merges the `b` and `f`
axes with `b` varying slowest, so flat index `q` decodes to batch `q / F` and
frame `q % F`. -/
def flatten_frames {B C F H W : Nat} {α : Type} (x : Tensor5 B C F H W α) :
    Tensor4 (B * F) C H W α :=
  fun q c h w =>
    x ⟨q.val / F, Nat.div_lt_of_lt_mul (by rw [Nat.mul_comm F B]; exact q.isLt)⟩ c
      ⟨q.val % F, Nat.mod_lt _ (by
        rcases Nat.eq_zero_or_pos F with h | h
        · exact absurd q.isLt (by simp [h])
        · exact h)⟩ h w

/-- `rearrange(y, "(b f) c h w -> b c f h w", f=F)`: the inverse regrouping
with the frame count `F` supplied explicitly (the `f=video_length` argument);
the pair (b, f) encodes to flat index `b * F + f`. -/
def unflatten_frames {B C H W : Nat} (F : Nat) {α : Type}
    (y : Tensor4 (B * F) C H W α) : Tensor5 B C F H W α :=
  fun b c f h w =>
    y ⟨b.val * F + f.val, by
      calc b.val * F + f.val < b.val * F + F := Nat.add_lt_add_left f.isLt _
        _ = (b.val + 1) * F := by ring
        _ ≤ B * F := Nat.mul_le_mul_right F b.isLt⟩ c h w

/-- C1: for every 5-axis tensor x of shape (B,C,F,H,W), flattening frames to
(B*F,C,H,W) and then unflattening with the same frame count F returns a
tensor identical to x in shape (enforced by the result type
`Tensor5 B C F H W α`) and in every element. -/
theorem c1_flatten_unflatten_roundtrip {B C F H W : Nat} {α : Type}
    (x : Tensor5 B C F H W α) :
    unflatten_frames F (flatten_frames x) = x := by
  funext b c f h w
  show x ⟨(b.val * F + f.val) / F, _⟩ c ⟨(b.val * F + f.val) % F, _⟩ h w
      = x b c f h w
  have h1 : (b.val * F + f.val) / F = b.val := by
    rw [Nat.mul_comm b.val F, Nat.mul_add_div f.pos, Nat.div_eq_of_lt f.isLt,
      Nat.add_zero]
  have h2 : (b.val * F + f.val) % F = f.val := by
    rw [Nat.mul_comm b.val F, Nat.mul_add_mod, Nat.mod_eq_of_lt f.isLt]
  congr 1
  · exact Fin.ext h1
  · exact Fin.ext h2

/-! ## Adapter scale injection (keyword-argument handling)

Models the configuration-argument slice at the head of each forward method:
reading the optional `lora_scale` / `motion_lora_scale` instance attributes
and deriving the `cross_attention_kwargs` / `motion_cross_attention_kwargs`
dictionaries that every attention / motion-module call of that forward pass
receives.  Python dicts over the scale values are association lists; an
argument of `Option (List (String × V))` is `none` when the caller omits the
keyword argument (so the parameter is bound to the function's default
object) and `some d` when the caller passes the dict `d`.  Passing the
python literal `None` explicitly is outside the modelled input space.
Mutable default-dict objects (`={}` defaults in the source) are threaded as
explicit state: a forward call returns the (possibly mutated) default
objects that persist into the next call of the same function. -/

/-- Python `d[key] = v` (also `d.update({key: v})`): replace the value at
`key` in place, preserving position, or append the new key. -/
def dset {V : Type} : List (String × V) → String → V → List (String × V)
  | [], k, v => [(k, v)]
  | (k', v') :: rest, k, v =>
    if k' = k then (k, v) :: rest else (k', v') :: dset rest k v

/-- Python `d[key]` lookup, `none` when absent. -/
def dget {V : Type} : List (String × V) → String → Option V
  | [], _ => none
  | (k', v') :: rest, k => if k' = k then some v' else dget rest k

/-- The persistent default-dict objects of `CrossAttnDownBlock3D.forward`
(signature defaults `cross_attention_kwargs={}`,
`motion_cross_attention_kwargs={}`). -/
structure CrossAttnDownDefaults (V : Type) where
  cak : List (String × V)
  mcak : List (String × V)

/-- The dictionaries actually delivered to the sub-operators in one forward
call: `attnArg` to every `attn(...)` call, `motionArg` to every
`motion_module(...)` call. -/
structure KwargsDelivery (V : Type) where
  attnArg : List (String × V)
  motionArg : List (String × V)

/-- Scale-injection slice of `CrossAttnDownBlock3D.forward` (lines 360-375):
`if lora_scale != None: cross_attention_kwargs["scale"] = lora_scale` mutates
the bound dict in place; `if motion_lora_scale != None:` either rebinds to a
fresh dict when the bound value is `None` (unreachable here, since the
default is `{}` and explicit `None` is outside the model) or calls
`.update({"scale": ...})` in place.  In-place mutation of an omitted
argument hits the function's default object, which is returned as the new
persistent state; mutation of a caller-supplied dict is visible only in the
delivered value. -/
def CrossAttnDownBlock3D_scaleInjection {V : Type}
    (lora_scale motion_lora_scale : Option V)
    (cakArg mcakArg : Option (List (String × V)))
    (defaults : CrossAttnDownDefaults V) :
    KwargsDelivery V × CrossAttnDownDefaults V :=
  let cak0 := match cakArg with
    | some d => d
    | none => defaults.cak
  let cak1 := match lora_scale with
    | some s => dset cak0 "scale" s
    | none => cak0
  let mcak0 := match mcakArg with
    | some d => d
    | none => defaults.mcak
  let mcak1 := match motion_lora_scale with
    | some s => dset mcak0 "scale" s
    | none => mcak0
  (⟨cak1, mcak1⟩,
    ⟨match cakArg with
      | some _ => defaults.cak
      | none => cak1,
     match mcakArg with
      | some _ => defaults.mcak
      | none => mcak1⟩)

/-- Scale-injection slice of `DownBlock3D.forward` (lines 494-504): the only
configuration parameter is `motion_cross_attention_kwargs={}`; the update is
in place as above.  Returns (dict delivered to motion modules, new default
object). -/
def DownBlock3D_scaleInjection {V : Type} (motion_lora_scale : Option V)
    (mcakArg : Option (List (String × V))) (mcakDefault : List (String × V)) :
    List (String × V) × List (String × V) :=
  let mcak0 := match mcakArg with
    | some d => d
    | none => mcakDefault
  let mcak1 := match motion_lora_scale with
    | some s => dset mcak0 "scale" s
    | none => mcak0
  (mcak1,
    match mcakArg with
    | some _ => mcakDefault
    | none => mcak1)

/-- Scale-injection slice of `UpBlock3D.forward` (lines 770-780): identical
parameter and update discipline to `DownBlock3D.forward`
(`motion_cross_attention_kwargs={}`, in-place update). -/
def UpBlock3D_scaleInjection {V : Type} (motion_lora_scale : Option V)
    (mcakArg : Option (List (String × V))) (mcakDefault : List (String × V)) :
    List (String × V) × List (String × V) :=
  let mcak0 := match mcakArg with
    | some d => d
    | none => mcakDefault
  let mcak1 := match motion_lora_scale with
    | some s => dset mcak0 "scale" s
    | none => mcak0
  (mcak1,
    match mcakArg with
    | some _ => mcakDefault
    | none => mcak1)

/-- Scale-injection slice of `CrossAttnUpBlock3D.forward` (lines 640-654):
`cross_attention_kwargs=None` default, so the lora branch REBINDS the local
name to a fresh one-entry dict (no mutation, no persistent state for it);
`motion_cross_attention_kwargs={}` default with in-place update as above.
Returns ((dict-or-None delivered to attention, dict delivered to motion
modules), new mcak default object). -/
def CrossAttnUpBlock3D_scaleInjection {V : Type}
    (lora_scale motion_lora_scale : Option V)
    (cakArg mcakArg : Option (List (String × V)))
    (mcakDefault : List (String × V)) :
    (Option (List (String × V)) × List (String × V)) × List (String × V) :=
  let cak1 := match lora_scale with
    | some s => some [("scale", s)]
    | none => cakArg
  let mcak0 := match mcakArg with
    | some d => d
    | none => mcakDefault
  let mcak1 := match motion_lora_scale with
    | some s => dset mcak0 "scale" s
    | none => mcak0
  ((cak1, mcak1),
    match mcakArg with
    | some _ => mcakDefault
    | none => mcak1)

/-- Scale-injection slice of `UNetMidBlock3DCrossAttn.forward`
(lines 240-248): both defaults are `None` (immutable, no persistent state).
The lora branch rebinds `cross_attention_kwargs` to a fresh dict; the motion
branch builds a fresh dict when the bound value is `None` (live here: that is
exactly the omitted-argument case) and updates in place otherwise.  Returns
(dict-or-None delivered to attention, dict-or-None delivered to motion
modules). -/
def UNetMidBlock3DCrossAttn_scaleInjection {V : Type}
    (lora_scale motion_lora_scale : Option V)
    (cakArg mcakArg : Option (List (String × V))) :
    Option (List (String × V)) × Option (List (String × V)) :=
  let cak1 := match lora_scale with
    | some s => some [("scale", s)]
    | none => cakArg
  let mcak1 := match motion_lora_scale with
    | some s =>
      match mcakArg with
      | none => some [("scale", s)]
      | some d => some (dset d "scale" s)
    | none => mcakArg
  (cak1, mcak1)

/-- C8: on every block's forward call, setting only the spatial adapter scale
attribute (`lora_scale`) does not alter the motion-module configuration
argument delivered to motion-module calls on that call; setting only the
motion scale attribute (`motion_lora_scale`) does not alter the
cross-attention configuration argument; and when a scale attribute is absent
the corresponding configuration argument reaches the sub-operators exactly as
the caller passed it (the caller's dict when supplied, the function's default
object when omitted), unmodified.  The two argument dicts are modelled as
distinct objects. -/
theorem c8_adapter_scale_isolation {V : Type} (lora motion : Option V)
    (cakArg mcakArg : Option (List (String × V)))
    (st : CrossAttnDownDefaults V) (mcakDefault : List (String × V)) :
    ((CrossAttnDownBlock3D_scaleInjection lora none cakArg mcakArg st).1.motionArg
        = match mcakArg with
          | some d => d
          | none => st.mcak)
    ∧ ((CrossAttnDownBlock3D_scaleInjection none motion cakArg mcakArg st).1.attnArg
        = match cakArg with
          | some d => d
          | none => st.cak)
    ∧ ((DownBlock3D_scaleInjection none mcakArg mcakDefault).1
        = match mcakArg with
          | some d => d
          | none => mcakDefault)
    ∧ ((UpBlock3D_scaleInjection none mcakArg mcakDefault).1
        = match mcakArg with
          | some d => d
          | none => mcakDefault)
    ∧ ((CrossAttnUpBlock3D_scaleInjection lora none cakArg mcakArg mcakDefault).1.2
        = match mcakArg with
          | some d => d
          | none => mcakDefault)
    ∧ ((CrossAttnUpBlock3D_scaleInjection none motion cakArg mcakArg mcakDefault).1.1
        = cakArg)
    ∧ ((UNetMidBlock3DCrossAttn_scaleInjection lora none cakArg mcakArg).2 = mcakArg)
    ∧ ((UNetMidBlock3DCrossAttn_scaleInjection none motion cakArg mcakArg).1 = cakArg) :=
  ⟨rfl, rfl, rfl, rfl, rfl, rfl, rfl, rfl⟩

/-- C9: the forward methods with mutable `={}` keyword defaults write the
adapter scale into the shared default dictionary in place.  Once the scale
attribute is set, a call omitting the argument stores the "scale" key in the
default object; a later call that also omits the argument observes that key
even after the attribute is removed, so two calls with identical explicit
arguments (none) and identical attribute state (no scale attribute) deliver
different configuration to the attention operator. -/
theorem c9_mutable_default_kwargs_leak {V : Type} (s : V)
    (mcakArg : Option (List (String × V))) (st : CrossAttnDownDefaults V) :
    ((CrossAttnDownBlock3D_scaleInjection (some s) none none mcakArg st).2.cak
        = dset st.cak "scale" s)
    ∧ ((DownBlock3D_scaleInjection (some s) none st.mcak).2
        = dset st.mcak "scale" s)
    ∧ ((DownBlock3D_scaleInjection none none (dset st.mcak "scale" s)).1
        = dset st.mcak "scale" s)
    ∧ (let st1 := (CrossAttnDownBlock3D_scaleInjection (some s) none none none
          (⟨[], []⟩ : CrossAttnDownDefaults V)).2
       ((CrossAttnDownBlock3D_scaleInjection none none none none st1).1.attnArg
          = [("scale", s)])
       ∧ dget ((CrossAttnDownBlock3D_scaleInjection none none none none
            st1).1.attnArg) "scale" = some s
       ∧ (CrossAttnDownBlock3D_scaleInjection none none none none
            (⟨[], []⟩ : CrossAttnDownDefaults V)).1.attnArg = []
       ∧ (CrossAttnDownBlock3D_scaleInjection none none none none
            st1).1.attnArg
          ≠ (CrossAttnDownBlock3D_scaleInjection none none none none
            (⟨[], []⟩ : CrossAttnDownDefaults V)).1.attnArg) := by
  refine ⟨rfl, rfl, rfl, rfl, ?_, rfl, ?_⟩
  · show dget [("scale", s)] "scale" = some s
    simp [dget]
  · show [("scale", s)] ≠ []
    simp

/-! ## Block construction

Each `__init__` is modelled by the list of `in_channels` values it hands to
its per-layer `ResnetBlock2D` spatial operators, built by recursion over the
index list `List.range num_layers` exactly as the python `for i in
range(num_layers)` loop; a raise inside the loop becomes an `Except.error`
at the corresponding iteration. -/

/-- Layer loop of `DownBlock3D.__init__` (lines 454-476):
`in_channels = in_channels if i == 0 else out_channels`. -/
def downBlock3DLayers (in_channels out_channels : Nat) : List Nat → List Nat
  | [] => []
  | i :: rest =>
    (if i = 0 then in_channels else out_channels)
      :: downBlock3DLayers in_channels out_channels rest

/-- `DownBlock3D.__init__`: resnet input channels per layer; never raises. -/
def DownBlock3D_init (in_channels out_channels num_layers : Nat) : List Nat :=
  downBlock3DLayers in_channels out_channels (List.range num_layers)

/-- Layer loop of `CrossAttnDownBlock3D.__init__` (lines 303-341): same
channel rule as `DownBlock3D`, plus `if dual_cross_attention: raise
NotImplementedError` inside the loop body. -/
def crossAttnDownLayers (in_channels out_channels : Nat)
    (dual_cross_attention : Bool) : List Nat → Except String (List Nat)
  | [] => .ok []
  | i :: rest =>
    let layer_in_channels := if i = 0 then in_channels else out_channels
    if dual_cross_attention then .error "NotImplementedError"
    else
      match crossAttnDownLayers in_channels out_channels dual_cross_attention rest with
      | .error e => .error e
      | .ok l => .ok (layer_in_channels :: l)

/-- `CrossAttnDownBlock3D.__init__`: resnet input channels per layer, or the
`NotImplementedError` raised when dual cross attention is requested and the
layer loop runs at least once. -/
def CrossAttnDownBlock3D_init (in_channels out_channels num_layers : Nat)
    (dual_cross_attention : Bool) : Except String (List Nat) :=
  crossAttnDownLayers in_channels out_channels dual_cross_attention
    (List.range num_layers)

/-- Layer loop of `UpBlock3D.__init__` (lines 734-758):
`res_skip_channels = in_channels if (i == num_layers - 1) else out_channels`,
`resnet_in_channels = prev_output_channel if i == 0 else out_channels`, and
the resnet receives `resnet_in_channels + res_skip_channels`. -/
def upBlock3DLayers (in_channels prev_output_channel out_channels num_layers : Nat) :
    List Nat → List Nat
  | [] => []
  | i :: rest =>
    let res_skip_channels := if i = num_layers - 1 then in_channels else out_channels
    let resnet_in_channels := if i = 0 then prev_output_channel else out_channels
    (resnet_in_channels + res_skip_channels)
      :: upBlock3DLayers in_channels prev_output_channel out_channels num_layers rest

/-- `UpBlock3D.__init__` (parameter order as in the source signature:
`in_channels, prev_output_channel, out_channels`): resnet input channels per
layer; never raises. -/
def UpBlock3D_init (in_channels prev_output_channel out_channels num_layers : Nat) :
    List Nat :=
  upBlock3DLayers in_channels prev_output_channel out_channels num_layers
    (List.range num_layers)

/-- Layer loop of `CrossAttnUpBlock3D.__init__` (lines 578-618): same channel
arithmetic as `UpBlock3D`, plus `if dual_cross_attention: raise
NotImplementedError` inside the loop body. -/
def crossAttnUpLayers (in_channels out_channels prev_output_channel num_layers : Nat)
    (dual_cross_attention : Bool) : List Nat → Except String (List Nat)
  | [] => .ok []
  | i :: rest =>
    let res_skip_channels := if i = num_layers - 1 then in_channels else out_channels
    let resnet_in_channels := if i = 0 then prev_output_channel else out_channels
    if dual_cross_attention then .error "NotImplementedError"
    else
      match crossAttnUpLayers in_channels out_channels prev_output_channel num_layers
          dual_cross_attention rest with
      | .error e => .error e
      | .ok l => .ok ((resnet_in_channels + res_skip_channels) :: l)

/-- `CrossAttnUpBlock3D.__init__` (parameter order as in the source
signature: `in_channels, out_channels, prev_output_channel`): resnet input
channels per layer, or the `NotImplementedError` raised when dual cross
attention is requested and the layer loop runs at least once. -/
def CrossAttnUpBlock3D_init (in_channels out_channels prev_output_channel num_layers : Nat)
    (dual_cross_attention : Bool) : Except String (List Nat) :=
  crossAttnUpLayers in_channels out_channels prev_output_channel num_layers
    dual_cross_attention (List.range num_layers)

/-- Layer loop of `UNetMidBlock3DCrossAttn.__init__` (lines 191-225): checks
`if dual_cross_attention: raise NotImplementedError` each iteration, then
appends one more resnet at `in_channels`. -/
def midLayers (in_channels : Nat) (dual_cross_attention : Bool) :
    List Nat → Except String (List Nat)
  | [] => .ok []
  | _ :: rest =>
    if dual_cross_attention then .error "NotImplementedError"
    else
      match midLayers in_channels dual_cross_attention rest with
      | .error e => .error e
      | .ok l => .ok (in_channels :: l)

/-- `UNetMidBlock3DCrossAttn.__init__`: resnet input channels ("there is
always at least one resnet" built before the loop, then one per layer), or
the `NotImplementedError` raised when dual cross attention is requested and
the layer loop runs at least once. -/
def UNetMidBlock3DCrossAttn_init (in_channels num_layers : Nat)
    (dual_cross_attention : Bool) : Except String (List Nat) :=
  match midLayers in_channels dual_cross_attention (List.range num_layers) with
  | .error e => .error e
  | .ok l => .ok (in_channels :: l)

/-- With dual cross attention off, the `CrossAttnUpBlock3D` layer loop
succeeds and produces the per-index channel sums. -/
theorem crossAttnUpLayers_ok (inC outC prevC L : Nat) (ixs : List Nat) :
    crossAttnUpLayers inC outC prevC L false ixs
      = .ok (ixs.map (fun i =>
          (if i = 0 then prevC else outC) + (if i = L - 1 then inC else outC))) := by
  induction ixs with
  | nil => rfl
  | cons i rest ih => simp [crossAttnUpLayers, ih]

/-- The `UpBlock3D` layer loop produces the per-index channel sums. -/
theorem upBlock3DLayers_eq_map (inC prevC outC L : Nat) (ixs : List Nat) :
    upBlock3DLayers inC prevC outC L ixs
      = ixs.map (fun i =>
          (if i = 0 then prevC else outC) + (if i = L - 1 then inC else outC)) := by
  induction ixs with
  | nil => rfl
  | cons i rest ih => simp [upBlock3DLayers, ih]

/-- C2: for every Up block (UpBlock3D or CrossAttnUpBlock3D) built with
`num_layers = L ≥ 1`, the spatial operator of layer `i` is constructed with
input channel count `resnet_in + skip`, where `resnet_in` is
`prev_output_channel` when `i = 0` and `out_channels` otherwise, and `skip`
is `in_channels` only when `i = L - 1` and `out_channels` otherwise. -/
theorem c2_up_block_channel_arithmetic
    (in_channels out_channels prev_output_channel num_layers : Nat)
    (hL : 1 ≤ num_layers) (i : Nat) (hi : i < num_layers) :
    (∃ chans,
        CrossAttnUpBlock3D_init in_channels out_channels prev_output_channel
          num_layers false = .ok chans
        ∧ chans[i]? = some ((if i = 0 then prev_output_channel else out_channels)
            + (if i = num_layers - 1 then in_channels else out_channels)))
    ∧ (UpBlock3D_init in_channels prev_output_channel out_channels num_layers)[i]?
        = some ((if i = 0 then prev_output_channel else out_channels)
            + (if i = num_layers - 1 then in_channels else out_channels)) := by
  constructor
  · refine ⟨_, crossAttnUpLayers_ok in_channels out_channels prev_output_channel
      num_layers (List.range num_layers), ?_⟩
    rw [List.getElem?_map, List.getElem?_range hi, Option.map_some']
  · unfold UpBlock3D_init
    rw [upBlock3DLayers_eq_map, List.getElem?_map, List.getElem?_range hi,
      Option.map_some']

/-- Witness for C2 at `in_channels=64, out_channels=128,
prev_output_channel=256, num_layers=3, i=1`. -/
theorem c2_up_block_channel_arithmetic_witness :
    (∃ chans, CrossAttnUpBlock3D_init 64 128 256 3 false = .ok chans
        ∧ chans[1]? = some ((if 1 = 0 then 256 else 128)
            + (if 1 = 3 - 1 then 64 else 128)))
    ∧ (UpBlock3D_init 64 256 128 3)[1]?
        = some ((if 1 = 0 then 256 else 128) + (if 1 = 3 - 1 then 64 else 128)) :=
  c2_up_block_channel_arithmetic 64 128 256 3 (by decide) 1 (by decide)

/-- C3 counterexample: for an Up block constructed with `in_channels = 64`,
`out_channels = 128`, `prev_output_channel = 256` and three layers, layer 0's
spatial operator accepts `256 + 128` input channels (its skip is not the last
layer's, so it uses `out_channels`), not `256 + 64` as claimed. -/
theorem c3_counterexample :
    CrossAttnUpBlock3D_init 64 128 256 3 false = .ok [256 + 128, 128 + 128, 128 + 64]
    ∧ UpBlock3D_init 64 256 128 3 = [256 + 128, 128 + 128, 128 + 64]
    ∧ (256 + 128 : Nat) ≠ 256 + 64 :=
  ⟨rfl, rfl, by decide⟩

/-- C3 amended: for an Up block constructed with `in_channels = 64`,
`out_channels = 128`, `prev_output_channel = 256` and three layers, the
three spatial operators accept input channel counts `256 + 128`,
`128 + 128` and `128 + 64` respectively, in layer order (the last layer's
skip uses `in_channels`, all earlier layers use `out_channels`). -/
theorem c3_up_block_concrete_channels :
    CrossAttnUpBlock3D_init 64 128 256 3 false = .ok [256 + 128, 128 + 128, 128 + 64]
    ∧ UpBlock3D_init 64 256 128 3 = [256 + 128, 128 + 128, 128 + 64] :=
  ⟨rfl, rfl⟩

/-! ## Block factory -/

/-- `down_block_type[7:] if down_block_type.startswith("UNetRes") else
down_block_type` (identical stripping in `get_up_block`).  Python slices and
`startswith` act on characters, so the test and the drop are taken on the
character list of the string ("UNetRes" is 7 characters). -/
def stripUNetRes (s : String) : String :=
  if "UNetRes".data.isPrefixOf s.data then String.mk (s.data.drop 7) else s

/-- A constructed down block, identified by its variant and its resnet input
channel list. -/
structure DownBlockModel where
  isCrossAttn : Bool
  resnetInChannels : List Nat
deriving DecidableEq

/-- A constructed up block, identified by its variant and its resnet input
channel list. -/
structure UpBlockModel where
  isCrossAttn : Bool
  resnetInChannels : List Nat
deriving DecidableEq

/-- `get_down_block` (lines 12-75): strips the "UNetRes" marker, dispatches
on the tag, raises `ValueError` when the cross-attention variant is
requested without `cross_attention_dim` and when the tag is unknown, and
otherwise delegates to the variant's constructor (which itself may raise
`NotImplementedError`, see `CrossAttnDownBlock3D_init`). -/
def get_down_block (down_block_type : String) (num_layers in_channels out_channels : Nat)
    (cross_attention_dim : Option Nat) (dual_cross_attention : Bool) :
    Except String DownBlockModel :=
  let t := stripUNetRes down_block_type
  if t = "DownBlock3D" then
    .ok ⟨false, DownBlock3D_init in_channels out_channels num_layers⟩
  else if t = "CrossAttnDownBlock3D" then
    match cross_attention_dim with
    | none => .error "cross_attention_dim must be specified for CrossAttnDownBlock3D"
    | some _ =>
      match CrossAttnDownBlock3D_init in_channels out_channels num_layers
          dual_cross_attention with
      | .error e => .error e
      | .ok chans => .ok ⟨true, chans⟩
  else .error (t ++ " does not exist.")

/-- `get_up_block` (lines 78-141): symmetric dispatch for the two up-block
variants. -/
def get_up_block (up_block_type : String)
    (num_layers in_channels out_channels prev_output_channel : Nat)
    (cross_attention_dim : Option Nat) (dual_cross_attention : Bool) :
    Except String UpBlockModel :=
  let t := stripUNetRes up_block_type
  if t = "UpBlock3D" then
    .ok ⟨false, UpBlock3D_init in_channels prev_output_channel out_channels num_layers⟩
  else if t = "CrossAttnUpBlock3D" then
    match cross_attention_dim with
    | none => .error "cross_attention_dim must be specified for CrossAttnUpBlock3D"
    | some _ =>
      match CrossAttnUpBlock3D_init in_channels out_channels prev_output_channel
          num_layers dual_cross_attention with
      | .error e => .error e
      | .ok chans => .ok ⟨true, chans⟩
  else .error (t ++ " does not exist.")

/-- With dual cross attention off, the `CrossAttnDownBlock3D` layer loop
succeeds and produces the per-index channel list. -/
theorem crossAttnDownLayers_ok (inC outC : Nat) (ixs : List Nat) :
    crossAttnDownLayers inC outC false ixs
      = .ok (ixs.map (fun i => if i = 0 then inC else outC)) := by
  induction ixs with
  | nil => rfl
  | cons i rest ih => simp [crossAttnDownLayers, ih]

/-- Requesting dual cross attention raises on the first layer iteration of
`CrossAttnDownBlock3D.__init__`, provided there is at least one layer. -/
theorem CrossAttnDownBlock3D_init_dual_error (inC outC L : Nat) (hL : 1 ≤ L) :
    CrossAttnDownBlock3D_init inC outC L true = .error "NotImplementedError" := by
  cases L with
  | zero => omega
  | succ n =>
    unfold CrossAttnDownBlock3D_init
    rw [List.range_succ_eq_map]
    rfl

/-- Requesting dual cross attention raises on the first layer iteration of
`CrossAttnUpBlock3D.__init__`, provided there is at least one layer. -/
theorem CrossAttnUpBlock3D_init_dual_error (inC outC prevC L : Nat) (hL : 1 ≤ L) :
    CrossAttnUpBlock3D_init inC outC prevC L true = .error "NotImplementedError" := by
  cases L with
  | zero => omega
  | succ n =>
    unfold CrossAttnUpBlock3D_init
    rw [List.range_succ_eq_map]
    rfl

/-- Requesting dual cross attention raises on the first layer iteration of
`UNetMidBlock3DCrossAttn.__init__`, provided there is at least one layer. -/
theorem UNetMidBlock3DCrossAttn_init_dual_error (inC L : Nat) (hL : 1 ≤ L) :
    UNetMidBlock3DCrossAttn_init inC L true = .error "NotImplementedError" := by
  cases L with
  | zero => omega
  | succ n =>
    unfold UNetMidBlock3DCrossAttn_init
    rw [List.range_succ_eq_map]
    rfl

/-- C6 counterexample: with a recognized cross-attention tag and a supplied
`cross_attention_dim` — one of the claim's "every other case"s — requesting
`dual_cross_attention` makes the delegated constructor raise
`NotImplementedError`, so the factories do not return a constructed block. -/
theorem c6_counterexample :
    get_down_block "CrossAttnDownBlock3D" 1 4 8 (some 1280) true
      = .error "NotImplementedError"
    ∧ get_up_block "CrossAttnUpBlock3D" 1 4 8 16 (some 1280) true
      = .error "NotImplementedError" :=
  ⟨rfl, rfl⟩

/-- C6 amended: `get_down_block` raises when the (prefix-stripped) tag is
"CrossAttnDownBlock3D" and `cross_attention_dim` is `None`, and when the tag
is neither "DownBlock3D" nor "CrossAttnDownBlock3D"; symmetrically for
`get_up_block` with its two variants; in every other case a constructed
block is returned — unless the delegated constructor itself raises:
requesting `dual_cross_attention` with at least one layer raises
`NotImplementedError` instead of returning a block. -/
theorem c6_factory_dispatch :
    (∀ t nl inC outC dual, stripUNetRes t = "CrossAttnDownBlock3D" →
        get_down_block t nl inC outC none dual
          = .error "cross_attention_dim must be specified for CrossAttnDownBlock3D")
    ∧ (∀ t nl inC outC cad dual, stripUNetRes t ≠ "DownBlock3D" →
        stripUNetRes t ≠ "CrossAttnDownBlock3D" →
        get_down_block t nl inC outC cad dual
          = .error (stripUNetRes t ++ " does not exist."))
    ∧ (∀ t nl inC outC cad dual, stripUNetRes t = "DownBlock3D" →
        get_down_block t nl inC outC cad dual
          = .ok ⟨false, DownBlock3D_init inC outC nl⟩)
    ∧ (∀ t nl inC outC d, stripUNetRes t = "CrossAttnDownBlock3D" →
        ∃ b, get_down_block t nl inC outC (some d) false = .ok b)
    ∧ (∀ t nl inC outC d, 1 ≤ nl → stripUNetRes t = "CrossAttnDownBlock3D" →
        get_down_block t nl inC outC (some d) true = .error "NotImplementedError")
    ∧ (∀ t nl inC outC prevC dual, stripUNetRes t = "CrossAttnUpBlock3D" →
        get_up_block t nl inC outC prevC none dual
          = .error "cross_attention_dim must be specified for CrossAttnUpBlock3D")
    ∧ (∀ t nl inC outC prevC cad dual, stripUNetRes t ≠ "UpBlock3D" →
        stripUNetRes t ≠ "CrossAttnUpBlock3D" →
        get_up_block t nl inC outC prevC cad dual
          = .error (stripUNetRes t ++ " does not exist."))
    ∧ (∀ t nl inC outC prevC cad dual, stripUNetRes t = "UpBlock3D" →
        get_up_block t nl inC outC prevC cad dual
          = .ok ⟨false, UpBlock3D_init inC prevC outC nl⟩)
    ∧ (∀ t nl inC outC prevC d, stripUNetRes t = "CrossAttnUpBlock3D" →
        ∃ b, get_up_block t nl inC outC prevC (some d) false = .ok b)
    ∧ (∀ t nl inC outC prevC d, 1 ≤ nl → stripUNetRes t = "CrossAttnUpBlock3D" →
        get_up_block t nl inC outC prevC (some d) true
          = .error "NotImplementedError") := by
  refine ⟨?_, ?_, ?_, ?_, ?_, ?_, ?_, ?_, ?_, ?_⟩
  · intro t nl inC outC dual h
    simp [get_down_block, h]
  · intro t nl inC outC cad dual h1 h2
    simp [get_down_block, h1, h2]
  · intro t nl inC outC cad dual h
    simp [get_down_block, h]
  · intro t nl inC outC d h
    refine ⟨⟨true, (List.range nl).map (fun i => if i = 0 then inC else outC)⟩, ?_⟩
    simp [get_down_block, h, CrossAttnDownBlock3D_init, crossAttnDownLayers_ok]
  · intro t nl inC outC d hnl h
    simp [get_down_block, h, CrossAttnDownBlock3D_init_dual_error inC outC nl hnl]
  · intro t nl inC outC prevC dual h
    simp [get_up_block, h]
  · intro t nl inC outC prevC cad dual h1 h2
    simp [get_up_block, h1, h2]
  · intro t nl inC outC prevC cad dual h
    simp [get_up_block, h]
  · intro t nl inC outC prevC d h
    refine ⟨⟨true, (List.range nl).map (fun i =>
      (if i = 0 then prevC else outC) + (if i = nl - 1 then inC else outC))⟩, ?_⟩
    simp [get_up_block, h, CrossAttnUpBlock3D_init, crossAttnUpLayers_ok]
  · intro t nl inC outC prevC d hnl h
    simp [get_up_block, h, CrossAttnUpBlock3D_init_dual_error inC outC prevC nl hnl]

/-- Witness for C6 amended: concrete factory calls for each dispatch case,
including a prefixed tag. -/
theorem c6_factory_dispatch_witness :
    get_down_block "CrossAttnDownBlock3D" 2 4 8 none false
      = .error "cross_attention_dim must be specified for CrossAttnDownBlock3D"
    ∧ get_down_block "UnknownBlock3D" 2 4 8 (some 1280) false
      = .error (stripUNetRes "UnknownBlock3D" ++ " does not exist.")
    ∧ get_down_block "UNetResDownBlock3D" 2 4 8 none true
      = .ok ⟨false, DownBlock3D_init 4 8 2⟩
    ∧ (∃ b, get_down_block "UNetResCrossAttnDownBlock3D" 2 4 8 (some 1280) false
        = .ok b)
    ∧ get_up_block "CrossAttnUpBlock3D" 2 4 8 16 none false
      = .error "cross_attention_dim must be specified for CrossAttnUpBlock3D"
    ∧ get_up_block "UnknownBlock3D" 2 4 8 16 (some 1280) false
      = .error (stripUNetRes "UnknownBlock3D" ++ " does not exist.")
    ∧ get_up_block "UpBlock3D" 2 4 8 16 none true
      = .ok ⟨false, UpBlock3D_init 4 16 8 2⟩
    ∧ (∃ b, get_up_block "CrossAttnUpBlock3D" 2 4 8 16 (some 1280) false = .ok b)
    ∧ get_down_block "CrossAttnDownBlock3D" 2 4 8 (some 1280) true
      = .error "NotImplementedError"
    ∧ get_up_block "CrossAttnUpBlock3D" 2 4 8 16 (some 1280) true
      = .error "NotImplementedError" :=
  ⟨c6_factory_dispatch.1 "CrossAttnDownBlock3D" 2 4 8 false (by decide),
   c6_factory_dispatch.2.1 "UnknownBlock3D" 2 4 8 (some 1280) false
     (by decide) (by decide),
   c6_factory_dispatch.2.2.1 "UNetResDownBlock3D" 2 4 8 none true (by decide),
   c6_factory_dispatch.2.2.2.1 "UNetResCrossAttnDownBlock3D" 2 4 8 1280 (by decide),
   c6_factory_dispatch.2.2.2.2.2.1 "CrossAttnUpBlock3D" 2 4 8 16 false (by decide),
   c6_factory_dispatch.2.2.2.2.2.2.1 "UnknownBlock3D" 2 4 8 16 (some 1280) false
     (by decide) (by decide),
   c6_factory_dispatch.2.2.2.2.2.2.2.1 "UpBlock3D" 2 4 8 16 none true (by decide),
   c6_factory_dispatch.2.2.2.2.2.2.2.2.1 "CrossAttnUpBlock3D" 2 4 8 16 1280 (by decide),
   c6_factory_dispatch.2.2.2.2.1 "CrossAttnDownBlock3D" 2 4 8 1280 (by decide) (by decide),
   c6_factory_dispatch.2.2.2.2.2.2.2.2.2 "CrossAttnUpBlock3D" 2 4 8 16 1280
     (by decide) (by decide)⟩

/-! ## Forward passes

The hidden-state dataflow of the forward methods, with each per-layer
composite (flatten → resnet → unflatten → optional attention → optional
motion module) abstracted as one opaque function per layer — down/mid layers
take the current hidden state, up layers take the current hidden state and
the popped skip entry (their `torch.cat` plus operators).  Raised exceptions
are `Except.error`; the gradient-checkpointing branch
`if self.training and self.gradient_checkpointing: raise NotImplementedError`
is checked at the top of every loop iteration exactly as in the source
(after the skip pop in the Up blocks). -/

/-- Sequential application of the layer stack (the hidden state after the
whole prefix of layers). -/
def stackApply {α : Type} : List (α → α) → α → α
  | [], x => x
  | l :: rest, x => stackApply rest (l x)

/-- The `output_states += (hidden_states,)` trace: hidden state after each
layer, in layer order. -/
def layerOutputs {α : Type} : List (α → α) → α → List α
  | [], _ => []
  | l :: rest, x => l x :: layerOutputs rest (l x)

/-- Layer loop shared by `DownBlock3D.forward` (lines 506-530) and
`CrossAttnDownBlock3D.forward` (lines 377-416): per iteration, raise if
`training and gradient_checkpointing`, else apply the layer composite and
append the result to `output_states`. -/
def downLayersLoop {α : Type} (training gradient_checkpointing : Bool) :
    List (α → α) → α → Except String (α × List α)
  | [], x => .ok (x, [])
  | l :: rest, x =>
    if training && gradient_checkpointing then .error "NotImplementedError"
    else
      match downLayersLoop training gradient_checkpointing rest (l x) with
      | .error e => .error e
      | .ok (fin, outs) => .ok (fin, l x :: outs)

/-- `DownBlock3D.forward` (lines 494-540): layer loop, then the optional
downsampler is applied and its result appended once more to
`output_states`; returns `(hidden_states, output_states)`. -/
def DownBlock3D_forward {α : Type} (training gradient_checkpointing : Bool)
    (layers : List (α → α)) (downsamplers : Option (α → α)) (hidden_states : α) :
    Except String (α × List α) :=
  match downLayersLoop training gradient_checkpointing layers hidden_states with
  | .error e => .error e
  | .ok (fin, outs) =>
    match downsamplers with
    | none => .ok (fin, outs)
    | some d => .ok (d fin, outs ++ [d fin])

/-- `CrossAttnDownBlock3D.forward` (lines 360-426): identical hidden-state
and `output_states` dataflow to `DownBlock3D.forward` (its layer composite
additionally contains the cross-attention call). -/
def CrossAttnDownBlock3D_forward {α : Type} (training gradient_checkpointing : Bool)
    (layers : List (α → α)) (downsamplers : Option (α → α)) (hidden_states : α) :
    Except String (α × List α) :=
  match downLayersLoop training gradient_checkpointing layers hidden_states with
  | .error e => .error e
  | .ok (fin, outs) =>
    match downsamplers with
    | none => .ok (fin, outs)
    | some d => .ok (d fin, outs ++ [d fin])

/-- `UNetMidBlock3DCrossAttn.forward` (lines 231-265): `resnets[0]` first,
then the per-layer (attention, optional motion module, resnet) composites.
The method contains no gradient-checkpointing branch; `training` and
`gradient_checkpointing` are accepted (any instance can carry the
attributes) and ignored, and nothing can raise. -/
def UNetMidBlock3DCrossAttn_forward {α : Type}
    (training gradient_checkpointing : Bool) (resnet0 : α → α)
    (layers : List (α → α)) (hidden_states : α) : α :=
  stackApply layers (resnet0 hidden_states)

/-- Sequential application of the up-block layer stack against the popped
skip entries listed in consumption order. -/
def upApply {α : Type} : List (α → α → α) → α → List α → α
  | [], x, _ => x
  | _ :: _, x, [] => x
  | l :: rest, x, r :: rs => upApply rest (l x r) rs

/-- Layer loop shared by `UpBlock3D.forward` (lines 782-809) and
`CrossAttnUpBlock3D.forward` (lines 656-698): per iteration, pop
`res_hidden_states_tuple[-1]` (IndexError on an empty tuple), truncate the
tuple, then raise if `training and gradient_checkpointing`, else apply the
layer composite to the hidden state and the popped entry.  Besides the final
hidden state the model returns two ghost observations: the final value of
the local `res_hidden_states_tuple` variable and the popped entries in pop
order. -/
def upLayersLoop {α : Type} (training gradient_checkpointing : Bool) :
    List (α → α → α) → α → List α → Except String (α × List α × List α)
  | [], x, skips => .ok (x, skips, [])
  | l :: rest, x, skips =>
    match skips.getLast? with
    | none => .error "IndexError: tuple index out of range"
    | some res_hidden_states =>
      if training && gradient_checkpointing then .error "NotImplementedError"
      else
        match upLayersLoop training gradient_checkpointing rest
            (l x res_hidden_states) skips.dropLast with
        | .error e => .error e
        | .ok (fin, rem, consumed) => .ok (fin, rem, res_hidden_states :: consumed)

/-- The optional upsampler application closing an Up block's forward. -/
def applyUpsampler {α : Type} (upsamplers : Option (α → α)) (x : α) : α :=
  match upsamplers with
  | none => x
  | some u => u x

/-- `UpBlock3D.forward` (lines 770-817): layer loop consuming the skip
tuple from its tail, then the optional upsampler. -/
def UpBlock3D_forward {α : Type} (training gradient_checkpointing : Bool)
    (layers : List (α → α → α)) (upsamplers : Option (α → α))
    (hidden_states : α) (res_hidden_states_tuple : List α) :
    Except String (α × List α × List α) :=
  match upLayersLoop training gradient_checkpointing layers hidden_states
      res_hidden_states_tuple with
  | .error e => .error e
  | .ok (fin, rem, consumed) => .ok (applyUpsampler upsamplers fin, rem, consumed)

/-- `CrossAttnUpBlock3D.forward` (lines 631-706): identical skip-tuple and
hidden-state dataflow to `UpBlock3D.forward` (its layer composite
additionally contains the cross-attention call). -/
def CrossAttnUpBlock3D_forward {α : Type} (training gradient_checkpointing : Bool)
    (layers : List (α → α → α)) (upsamplers : Option (α → α))
    (hidden_states : α) (res_hidden_states_tuple : List α) :
    Except String (α × List α × List α) :=
  match upLayersLoop training gradient_checkpointing layers hidden_states
      res_hidden_states_tuple with
  | .error e => .error e
  | .ok (fin, rem, consumed) => .ok (applyUpsampler upsamplers fin, rem, consumed)

/-- Outside the gradient-checkpointing configuration the down-block layer
loop cannot raise: it returns the folded hidden state and the per-layer
output trace. -/
theorem downLayersLoop_ok {α : Type} (tr gc : Bool) (h : (tr && gc) = false)
    (layers : List (α → α)) (x : α) :
    downLayersLoop tr gc layers x = .ok (stackApply layers x, layerOutputs layers x) := by
  induction layers generalizing x with
  | nil => rfl
  | cons l rest ih => simp [downLayersLoop, stackApply, layerOutputs, h, ih]

/-- The per-layer output trace has one entry per layer. -/
theorem layerOutputs_length {α : Type} (layers : List (α → α)) (x : α) :
    (layerOutputs layers x).length = layers.length := by
  induction layers generalizing x with
  | nil => rfl
  | cons l rest ih => simp [layerOutputs, ih]

/-- Entry `i` of the per-layer output trace is the hidden state after the
first `i + 1` layers. -/
theorem layerOutputs_getElem? {α : Type} (layers : List (α → α)) (x : α)
    (i : Nat) (hi : i < layers.length) :
    (layerOutputs layers x)[i]? = some (stackApply (layers.take (i + 1)) x) := by
  induction layers generalizing x i with
  | nil => simp at hi
  | cons l rest ih =>
    cases i with
    | zero => simp [layerOutputs, stackApply]
    | succ j =>
      have hj : j < rest.length := by simpa using hi
      simp [layerOutputs, stackApply, ih (l x) j hj]

/-- C5: for every Down block (DownBlock3D or CrossAttnDownBlock3D) with
`num_layers = L`, outside the gradient-checkpointing configuration, forward
returns an output sequence of exactly `L + 1` entries when a downsampler is
present and exactly `L` when it is not; entry `i` is the hidden state after
layer `i` and, when present, the last entry is the hidden state after the
downsampler. -/
theorem c5_down_block_output_sequence {α : Type} (training gradient_checkpointing : Bool)
    (h : (training && gradient_checkpointing) = false)
    (layers : List (α → α)) (d : α → α) (x : α) :
    (∃ fin outs,
        DownBlock3D_forward training gradient_checkpointing layers (some d) x
          = .ok (fin, outs)
        ∧ outs.length = layers.length + 1
        ∧ (∀ i, i < layers.length → outs[i]? = some (stackApply (layers.take (i + 1)) x))
        ∧ outs[layers.length]? = some (d (stackApply layers x))
        ∧ fin = d (stackApply layers x))
    ∧ (∃ fin outs,
        DownBlock3D_forward training gradient_checkpointing layers none x
          = .ok (fin, outs)
        ∧ outs.length = layers.length
        ∧ (∀ i, i < layers.length → outs[i]? = some (stackApply (layers.take (i + 1)) x))
        ∧ fin = stackApply layers x)
    ∧ (∃ fin outs,
        CrossAttnDownBlock3D_forward training gradient_checkpointing layers (some d) x
          = .ok (fin, outs)
        ∧ outs.length = layers.length + 1
        ∧ (∀ i, i < layers.length → outs[i]? = some (stackApply (layers.take (i + 1)) x))
        ∧ outs[layers.length]? = some (d (stackApply layers x))
        ∧ fin = d (stackApply layers x))
    ∧ (∃ fin outs,
        CrossAttnDownBlock3D_forward training gradient_checkpointing layers none x
          = .ok (fin, outs)
        ∧ outs.length = layers.length
        ∧ (∀ i, i < layers.length → outs[i]? = some (stackApply (layers.take (i + 1)) x))
        ∧ fin = stackApply layers x) := by
  have hsampled : ∃ fin outs,
      DownBlock3D_forward training gradient_checkpointing layers (some d) x
        = .ok (fin, outs)
      ∧ outs.length = layers.length + 1
      ∧ (∀ i, i < layers.length → outs[i]? = some (stackApply (layers.take (i + 1)) x))
      ∧ outs[layers.length]? = some (d (stackApply layers x))
      ∧ fin = d (stackApply layers x) := by
    refine ⟨d (stackApply layers x),
      layerOutputs layers x ++ [d (stackApply layers x)], ?_, ?_, ?_, ?_, rfl⟩
    · unfold DownBlock3D_forward
      rw [downLayersLoop_ok training gradient_checkpointing h layers x]
    · simp [layerOutputs_length]
    · intro i hi
      rw [List.getElem?_append]
      simp [layerOutputs_length, hi, layerOutputs_getElem? layers x i hi]
    · rw [show layers.length = (layerOutputs layers x).length from
        (layerOutputs_length layers x).symm]
      exact List.getElem?_concat_length _ _
  have hplain : ∃ fin outs,
      DownBlock3D_forward training gradient_checkpointing layers none x
        = .ok (fin, outs)
      ∧ outs.length = layers.length
      ∧ (∀ i, i < layers.length → outs[i]? = some (stackApply (layers.take (i + 1)) x))
      ∧ fin = stackApply layers x := by
    refine ⟨stackApply layers x, layerOutputs layers x, ?_, layerOutputs_length layers x,
      fun i hi => layerOutputs_getElem? layers x i hi, rfl⟩
    unfold DownBlock3D_forward
    rw [downLayersLoop_ok training gradient_checkpointing h layers x]
  exact ⟨hsampled, hplain, hsampled, hplain⟩

/-- Witness for C5 at one concrete block: two layers over natural numbers,
downsampler doubling. -/
theorem c5_down_block_output_sequence_witness :
    ((false && false) = false)
    ∧ (∃ fin outs,
        DownBlock3D_forward false false [Nat.succ, Nat.succ] (some (fun n => n * 2)) 0
          = .ok (fin, outs)
        ∧ outs.length = [Nat.succ, Nat.succ].length + 1
        ∧ (∀ i, i < [Nat.succ, Nat.succ].length →
            outs[i]? = some (stackApply ([Nat.succ, Nat.succ].take (i + 1)) 0))
        ∧ outs[[Nat.succ, Nat.succ].length]?
            = some ((fun n => n * 2) (stackApply [Nat.succ, Nat.succ] 0))
        ∧ fin = (fun n => n * 2) (stackApply [Nat.succ, Nat.succ] 0)) :=
  ⟨rfl, (c5_down_block_output_sequence false false rfl [Nat.succ, Nat.succ]
    (fun n => n * 2) 0).1⟩

/-- Outside the gradient-checkpointing configuration, running the up-block
layer loop on a skip tuple whose suffix (in reverse, `rs`) has one entry per
layer pops exactly that suffix, leaves the prefix untouched, and folds the
layers against the popped entries. -/
theorem upLayersLoop_ok {α : Type} (tr gc : Bool) (h : (tr && gc) = false)
    (layers : List (α → α → α)) (y : α) (pre rs : List α)
    (hlen : rs.length = layers.length) :
    upLayersLoop tr gc layers y (pre ++ rs.reverse)
      = .ok (upApply layers y rs, pre, rs) := by
  induction layers generalizing y rs pre with
  | nil =>
    have hrs : rs = [] := List.eq_nil_of_length_eq_zero hlen
    subst hrs
    simp [upLayersLoop, upApply]
  | cons l rest ih =>
    cases rs with
    | nil => simp at hlen
    | cons r rs' =>
      have hlen' : rs'.length = rest.length := by simpa using hlen
      have hrw : pre ++ (r :: rs').reverse = (pre ++ rs'.reverse) ++ [r] := by
        simp
      rw [hrw]
      simp only [upLayersLoop, List.getLast?_concat, List.dropLast_concat, h,
        Bool.false_eq_true, if_false]
      rw [ih (l y r) pre rs' hlen']
      rfl

/-- An up-block layer loop given fewer skip entries than layers fails with
the IndexError of `res_hidden_states_tuple[-1]` on an empty tuple. -/
theorem upLayersLoop_short_error {α : Type} (tr gc : Bool)
    (h : (tr && gc) = false) (layers : List (α → α → α)) (y : α)
    (skips : List α) (hlen : skips.length < layers.length) :
    upLayersLoop tr gc layers y skips
      = .error "IndexError: tuple index out of range" := by
  induction layers generalizing y skips with
  | nil => simp at hlen
  | cons l rest ih =>
    rcases List.eq_nil_or_concat skips with hnil | ⟨pre, b, hcat⟩
    · subst hnil
      rfl
    · subst hcat
      have hlen' : pre.length < rest.length := by
        simpa [List.concat_eq_append] using hlen
      simp only [List.concat_eq_append, upLayersLoop, List.getLast?_concat,
        List.dropLast_concat, h, Bool.false_eq_true, if_false]
      rw [ih (l y b) pre hlen']

/-- C10: outside the gradient-checkpointing configuration, each Up block
forward call removes exactly `num_layers` entries from the end of
`res_hidden_states_tuple`, one per layer from last to first; entries before
the last `num_layers` are returned unchanged and the final hidden state and
consumption order depend only on the consumed suffix; if the tuple holds
fewer than `num_layers` entries the call fails with an indexing error at the
first layer for which no entry remains. -/
theorem c10_up_block_skip_consumption {α : Type}
    (training gradient_checkpointing : Bool)
    (h : (training && gradient_checkpointing) = false)
    (layers : List (α → α → α)) (upsamplers : Option (α → α)) (y : α)
    (pre suf : List α) (hlen : suf.length = layers.length) :
    (UpBlock3D_forward training gradient_checkpointing layers upsamplers y (pre ++ suf)
        = .ok (applyUpsampler upsamplers (upApply layers y suf.reverse), pre, suf.reverse))
    ∧ (CrossAttnUpBlock3D_forward training gradient_checkpointing layers upsamplers y
        (pre ++ suf)
        = .ok (applyUpsampler upsamplers (upApply layers y suf.reverse), pre, suf.reverse))
    ∧ (∀ skips : List α, skips.length < layers.length →
        UpBlock3D_forward training gradient_checkpointing layers upsamplers y skips
          = .error "IndexError: tuple index out of range"
        ∧ CrossAttnUpBlock3D_forward training gradient_checkpointing layers upsamplers
            y skips
          = .error "IndexError: tuple index out of range") := by
  have hloop : upLayersLoop training gradient_checkpointing layers y (pre ++ suf)
      = .ok (upApply layers y suf.reverse, pre, suf.reverse) := by
    have := upLayersLoop_ok training gradient_checkpointing h layers y pre suf.reverse
      (by simpa using hlen)
    simpa using this
  have hok : UpBlock3D_forward training gradient_checkpointing layers upsamplers y
      (pre ++ suf)
      = .ok (applyUpsampler upsamplers (upApply layers y suf.reverse), pre, suf.reverse) := by
    unfold UpBlock3D_forward
    rw [hloop]
  have hshort : ∀ skips : List α, skips.length < layers.length →
      UpBlock3D_forward training gradient_checkpointing layers upsamplers y skips
        = .error "IndexError: tuple index out of range" := by
    intro skips hs
    unfold UpBlock3D_forward
    rw [upLayersLoop_short_error training gradient_checkpointing h layers y skips hs]
  exact ⟨hok, hok, fun skips hs => ⟨hshort skips hs, hshort skips hs⟩⟩

/-- Witness for C10: three layers over natural numbers, skip tuple with an
extra untouched prefix entry, and a too-short tuple. -/
theorem c10_up_block_skip_consumption_witness :
    ((false && false) = false)
    ∧ (([10, 20, 30] : List Nat).length
        = [fun a b : Nat => a + b, fun a b : Nat => a + b,
            fun a b : Nat => a + b].length)
    ∧ (UpBlock3D_forward false false
        [fun a b : Nat => a + b, fun a b : Nat => a + b, fun a b : Nat => a + b]
        none 1 ([99] ++ [10, 20, 30])
        = .ok (applyUpsampler none
            (upApply [fun a b : Nat => a + b, fun a b : Nat => a + b,
                fun a b : Nat => a + b] 1 ([10, 20, 30] : List Nat).reverse),
          [99], ([10, 20, 30] : List Nat).reverse)) := by
  refine ⟨rfl, rfl, ?_⟩
  exact (c10_up_block_skip_consumption false false rfl
    [fun a b : Nat => a + b, fun a b : Nat => a + b, fun a b : Nat => a + b]
    none 1 [99] [10, 20, 30] rfl).1

/-- C4: feeding the output sequence produced by a Down block with
`layer_count = L` and resampling enabled (length `L + 1`) into the paired Up
block (one with `L + 1` layers) consumes the entries in exact reverse
production order — last produced, first consumed — and after the Up block's
forward call zero entries remain unconsumed; this holds for both Down block
variants feeding both Up block variants. -/
theorem c4_skip_lifo_full_drain {α : Type} (training gradient_checkpointing : Bool)
    (h : (training && gradient_checkpointing) = false)
    (dlayers : List (α → α)) (d : α → α) (x : α)
    (ulayers : List (α → α → α)) (upsamplers : Option (α → α)) (y : α)
    (hpaired : ulayers.length = dlayers.length + 1) :
    ∃ fin outs,
      DownBlock3D_forward training gradient_checkpointing dlayers (some d) x
        = .ok (fin, outs)
      ∧ CrossAttnDownBlock3D_forward training gradient_checkpointing dlayers (some d) x
        = .ok (fin, outs)
      ∧ outs.length = dlayers.length + 1
      ∧ UpBlock3D_forward training gradient_checkpointing ulayers upsamplers y outs
          = .ok (applyUpsampler upsamplers (upApply ulayers y outs.reverse),
              [], outs.reverse)
      ∧ CrossAttnUpBlock3D_forward training gradient_checkpointing ulayers upsamplers
          y outs
          = .ok (applyUpsampler upsamplers (upApply ulayers y outs.reverse),
              [], outs.reverse) := by
  have hloop : upLayersLoop training gradient_checkpointing ulayers y
      (layerOutputs dlayers x ++ [d (stackApply dlayers x)])
      = .ok (upApply ulayers y
          (layerOutputs dlayers x ++ [d (stackApply dlayers x)]).reverse,
        [], (layerOutputs dlayers x ++ [d (stackApply dlayers x)]).reverse) := by
    have := upLayersLoop_ok training gradient_checkpointing h ulayers y []
      (layerOutputs dlayers x ++ [d (stackApply dlayers x)]).reverse
      (by simp [layerOutputs_length, hpaired])
    simpa using this
  refine ⟨d (stackApply dlayers x),
    layerOutputs dlayers x ++ [d (stackApply dlayers x)], ?_, ?_, ?_, ?_, ?_⟩
  · unfold DownBlock3D_forward
    rw [downLayersLoop_ok training gradient_checkpointing h dlayers x]
  · unfold CrossAttnDownBlock3D_forward
    rw [downLayersLoop_ok training gradient_checkpointing h dlayers x]
  · simp [layerOutputs_length]
  · unfold UpBlock3D_forward
    rw [hloop]
  · unfold CrossAttnUpBlock3D_forward
    rw [hloop]

/-- Witness for C4: a two-layer Down block with downsampler feeding
three-layer Up blocks over natural numbers. -/
theorem c4_skip_lifo_full_drain_witness :
    ((false && false) = false)
    ∧ (∃ fin outs,
        DownBlock3D_forward false false [Nat.succ, Nat.succ] (some Nat.succ) 0
          = .ok (fin, outs)
        ∧ CrossAttnDownBlock3D_forward false false [Nat.succ, Nat.succ]
            (some Nat.succ) 0
          = .ok (fin, outs)
        ∧ outs.length = [Nat.succ, Nat.succ].length + 1
        ∧ UpBlock3D_forward false false
            [fun a b : Nat => a + b, fun a b : Nat => a + b, fun a b : Nat => a + b]
            none 5 outs
          = .ok (applyUpsampler none
              (upApply [fun a b : Nat => a + b, fun a b : Nat => a + b,
                  fun a b : Nat => a + b] 5 outs.reverse),
            [], outs.reverse)
        ∧ CrossAttnUpBlock3D_forward false false
            [fun a b : Nat => a + b, fun a b : Nat => a + b, fun a b : Nat => a + b]
            none 5 outs
          = .ok (applyUpsampler none
              (upApply [fun a b : Nat => a + b, fun a b : Nat => a + b,
                  fun a b : Nat => a + b] 5 outs.reverse),
            [], outs.reverse)) :=
  ⟨rfl, c4_skip_lifo_full_drain false false rfl [Nat.succ, Nat.succ] Nat.succ 0
    [fun a b : Nat => a + b, fun a b : Nat => a + b, fun a b : Nat => a + b]
    none 5 rfl⟩

/-- C7 counterexample: three concrete deviations from the claim.  First, a
cross-attention block constructed with `dual_cross_attention=True` but zero
layers does NOT raise — the raise sits inside the layer loop, which never
runs (shown for all three cross-attention classes).  Second, the mid block's
forward contains no gradient-checkpointing check at all: with training and
checkpointing selected it computes normally instead of raising.  Third, an
Up block's forward in that configuration raises IndexError, not
NotImplementedError, when the skip tuple is empty, because the skip pop
precedes the check. -/
theorem c7_counterexample :
    CrossAttnDownBlock3D_init 4 8 0 true = .ok []
    ∧ CrossAttnUpBlock3D_init 4 8 16 0 true = .ok []
    ∧ UNetMidBlock3DCrossAttn_init 4 0 true = .ok [4]
    ∧ UNetMidBlock3DCrossAttn_forward true true Nat.succ [Nat.succ] 0 = 2
    ∧ CrossAttnUpBlock3D_forward true true [fun a b : Nat => a + b] none 0 []
        = .error "IndexError: tuple index out of range" :=
  ⟨rfl, rfl, rfl, rfl, rfl⟩

/-- C7 amended: constructing any cross-attention block with
`dual_cross_attention=True` and at least one layer raises
`NotImplementedError` during construction (with zero layers construction
silently succeeds).  A forward call of a Down or Up block in training mode
with gradient checkpointing enabled and at least one layer raises
`NotImplementedError` before any layer computation — for Up blocks after the
first skip pop, so with an empty skip tuple the pop's IndexError is raised
instead; the mid block's forward performs no such check and computes
normally, ignoring both flags. -/
theorem c7_fail_fast_unimplemented {α : Type} :
    (∀ inC outC L, 1 ≤ L →
        CrossAttnDownBlock3D_init inC outC L true = .error "NotImplementedError")
    ∧ (∀ inC outC prevC L, 1 ≤ L →
        CrossAttnUpBlock3D_init inC outC prevC L true = .error "NotImplementedError")
    ∧ (∀ inC L, 1 ≤ L →
        UNetMidBlock3DCrossAttn_init inC L true = .error "NotImplementedError")
    ∧ (∀ (layers : List (α → α)) ds x, layers ≠ [] →
        DownBlock3D_forward true true layers ds x = .error "NotImplementedError"
        ∧ CrossAttnDownBlock3D_forward true true layers ds x
            = .error "NotImplementedError")
    ∧ (∀ (layers : List (α → α → α)) ups y skips, layers ≠ [] → skips ≠ [] →
        UpBlock3D_forward true true layers ups y skips = .error "NotImplementedError"
        ∧ CrossAttnUpBlock3D_forward true true layers ups y skips
            = .error "NotImplementedError")
    ∧ (∀ (layers : List (α → α → α)) ups y, layers ≠ [] →
        UpBlock3D_forward true true layers ups y []
            = .error "IndexError: tuple index out of range"
        ∧ CrossAttnUpBlock3D_forward true true layers ups y []
            = .error "IndexError: tuple index out of range")
    ∧ (∀ (tr gc : Bool) (resnet0 : α → α) layers x,
        UNetMidBlock3DCrossAttn_forward tr gc resnet0 layers x
          = UNetMidBlock3DCrossAttn_forward false false resnet0 layers x) := by
  refine ⟨?_, ?_, ?_, ?_, ?_, ?_, ?_⟩
  · exact fun inC outC L hL => CrossAttnDownBlock3D_init_dual_error inC outC L hL
  · exact fun inC outC prevC L hL =>
      CrossAttnUpBlock3D_init_dual_error inC outC prevC L hL
  · exact fun inC L hL => UNetMidBlock3DCrossAttn_init_dual_error inC L hL
  · intro layers ds x hne
    cases layers with
    | nil => exact absurd rfl hne
    | cons l rest => exact ⟨rfl, rfl⟩
  · intro layers ups y skips hne hskips
    cases layers with
    | nil => exact absurd rfl hne
    | cons l rest =>
      rcases List.eq_nil_or_concat skips with hnil | ⟨pre, b, hcat⟩
      · exact absurd hnil hskips
      · subst hcat
        constructor
        · simp only [List.concat_eq_append, UpBlock3D_forward, upLayersLoop,
            List.getLast?_concat]
          rfl
        · simp only [List.concat_eq_append, CrossAttnUpBlock3D_forward, upLayersLoop,
            List.getLast?_concat]
          rfl
  · intro layers ups y hne
    cases layers with
    | nil => exact absurd rfl hne
    | cons l rest => exact ⟨rfl, rfl⟩
  · intro tr gc resnet0 layers x
    rfl

/-- Witness for C7 amended: each fail-fast case at a concrete
configuration. -/
theorem c7_fail_fast_unimplemented_witness :
    CrossAttnDownBlock3D_init 4 8 2 true = .error "NotImplementedError"
    ∧ CrossAttnUpBlock3D_init 4 8 16 2 true = .error "NotImplementedError"
    ∧ UNetMidBlock3DCrossAttn_init 4 2 true = .error "NotImplementedError"
    ∧ (DownBlock3D_forward true true [Nat.succ] none 0 = .error "NotImplementedError"
       ∧ CrossAttnDownBlock3D_forward true true [Nat.succ] none 0
           = .error "NotImplementedError")
    ∧ (UpBlock3D_forward true true [fun a b : Nat => a + b] none 0 [7]
           = .error "NotImplementedError"
       ∧ CrossAttnUpBlock3D_forward true true [fun a b : Nat => a + b] none 0 [7]
           = .error "NotImplementedError")
    ∧ (UpBlock3D_forward true true [fun a b : Nat => a + b] none 0 []
           = .error "IndexError: tuple index out of range"
       ∧ CrossAttnUpBlock3D_forward true true [fun a b : Nat => a + b] none 0 []
           = .error "IndexError: tuple index out of range")
    ∧ UNetMidBlock3DCrossAttn_forward true true Nat.succ [Nat.succ] 0
        = UNetMidBlock3DCrossAttn_forward false false Nat.succ [Nat.succ] 0 :=
  ⟨(@c7_fail_fast_unimplemented Nat).1 4 8 2 (by decide),
   (@c7_fail_fast_unimplemented Nat).2.1 4 8 16 2 (by decide),
   (@c7_fail_fast_unimplemented Nat).2.2.1 4 2 (by decide),
   (@c7_fail_fast_unimplemented Nat).2.2.2.1 [Nat.succ] none 0 (by simp),
   (@c7_fail_fast_unimplemented Nat).2.2.2.2.1 [fun a b : Nat => a + b] none 0 [7]
     (by simp) (by simp),
   (@c7_fail_fast_unimplemented Nat).2.2.2.2.2.1 [fun a b : Nat => a + b] none 0
     (by simp),
   (@c7_fail_fast_unimplemented Nat).2.2.2.2.2.2 true true Nat.succ [Nat.succ] 0⟩

end SynFMC
